import Mathlib

/-!
Shallow embedding of the core of the `anathema` terminal-UI toolkit:
the value-reference tagged union and its conversions
(`src/anathema-values/src/value/mod.rs`) and the border layout algorithm
(`src/anathema-widgets/src/layout/border.rs`).

Types that the sources use but that are defined in crates outside the
provided tree (`anathema-render`, `anathema-widget-core`, the `Owned`/`Num`
scalar modules) are modelled from the specification; each such definition
carries a doc comment starting with `Modelled from the spec:`.
-/

namespace Anathema

/-! ## Scalar payloads (modelled) -/

/-- Modelled from the spec: the `Color` payload of `anathema-render` is an
opaque scalar; we stand it in by a numeric code with decidable equality. -/
structure Color where
  code : Nat
deriving DecidableEq

/-- Modelled from the spec: `Num` (from the `num` module, not in the provided
tree) splits into signed (`i64`), unsigned (`u64`) and floating (`f64`)
forms.  Machine integers are embedded as `Int`/`Nat`; the float payload is
carried opaquely (no claim depends on float arithmetic). -/
inductive Num where
  | Signed : Int → Num
  | Unsigned : Nat → Num
  | Float : Float → Num

/-- Modelled from the spec: `Owned` (from the `owned` module, not in the
provided tree) is the closed set of copyable scalar kinds. -/
inductive Owned where
  | Bool : Bool → Owned
  | Char : Char → Owned
  | Color : Color → Owned
  | Num : Num → Owned

/-- Modelled from the spec: stand-in for a borrowed `&dyn State` handle;
the `id` plays the role of the pointer identity of the borrowed map. -/
structure StateHandle where
  id : Nat

/-- Modelled from the spec: stand-in for a borrowed `&dyn Collection`
handle. -/
structure CollectionHandle where
  id : Nat

/-- Modelled from the spec: stand-in for one compiled expression
(`ValueExpr`), opaque to this core. -/
structure ValueExpr where
  id : Nat

/-! ## The value-reference union (`ValueRef` in `value/mod.rs`) -/

/-- `ValueRef<'a>`: a value reference is either owned or referencing
something inside an expression (`value/mod.rs`).  The borrowed payloads are
the modelled handles above; `Expressions` carries the borrowed slice of
compiled expressions and `ExpressionMap` the named-expression table. -/
inductive ValueRef where
  | Str : String → ValueRef
  | Map : StateHandle → ValueRef
  | List : CollectionHandle → ValueRef
  | Expressions : List ValueExpr → ValueRef
  | ExpressionMap : List (String × ValueExpr) → ValueRef
  | Owned : Owned → ValueRef
  | Deferred : ValueRef
  | Empty : ValueRef

/-- `ValueRef::is_true` (`value/mod.rs`): non-empty strings, true booleans
and strictly positive signed/unsigned numbers are true; everything else is
false. -/
def ValueRef.is_true : ValueRef → Bool
  | .Str s => !s.isEmpty
  | .Owned (.Bool b) => b
  | .Owned (.Num (.Unsigned n)) => n > 0
  | .Owned (.Num (.Signed n)) => n > 0
  | _ => false

/-- Modelled from the spec: equality of `Num` values (derived `PartialEq`
on the `num` module's enum): same-variant payload comparison, floats via
float equality, cross-variant pairs unequal. -/
def numBeq : Num → Num → Bool
  | .Signed a, .Signed b => a == b
  | .Unsigned a, .Unsigned b => a == b
  | .Float a, .Float b => a == b
  | _, _ => false

/-- Modelled from the spec: equality of `Owned` scalars (derived
`PartialEq` on the `owned` module's enum). -/
def ownedBeq : Owned → Owned → Bool
  | .Bool a, .Bool b => a == b
  | .Char a, .Char b => a == b
  | .Color a, .Color b => a == b
  | .Num a, .Num b => numBeq a b
  | _, _ => false

/-- `impl PartialEq for ValueRef` (`value/mod.rs`): only `Str`/`Str` and
`Owned`/`Owned` pairs compare by payload; every other pairing is `false`. -/
def valueRefBeq : ValueRef → ValueRef → Bool
  | .Str lhs, .Str rhs => lhs == rhs
  | .Owned lhs, .Owned rhs => ownedBeq lhs rhs
  | _, _ => false

/-! ## Conversions (`value/mod.rs`) -/

/-- `impl Into<ValueRef> for &str` (`value/mod.rs`). -/
def strIntoValueRef (s : String) : ValueRef := ValueRef.Str s

/-- The unsigned instantiations of the `num_try_from!` macro
(`value/mod.rs`): for a target of bit width `w` (8, 16, 32, 64; `usize` is
64 on the reference platform), a `Signed` payload is cast with `as` —
two's-complement reinterpretation truncated to `w` bits, i.e. `n mod 2^w`
— and an `Unsigned` payload likewise truncated; every other tag fails with
the uniform unit error. -/
def unsignedTryFrom (w : Nat) : ValueRef → Except Unit Nat
  | .Owned (.Num (.Signed num)) => Except.ok ((num % ((2 : Int) ^ w)).toNat)
  | .Owned (.Num (.Unsigned num)) => Except.ok (num % 2 ^ w)
  | _ => Except.error ()

/-- `impl TryFrom<ValueRef> for String` (`value/mod.rs`): `s.to_string()`
makes an owned copy, which in the embedding is the string itself. -/
def stringTryFrom : ValueRef → Except Unit String
  | .Str s => Except.ok s
  | _ => Except.error ()

/-- `impl TryFrom<ValueRef> for &str` (`value/mod.rs`): a zero-copy borrow
of the same slice. -/
def strSliceTryFrom : ValueRef → Except Unit String
  | .Str s => Except.ok s
  | _ => Except.error ()

/-! ## Geometry and constraints (modelled; `anathema-render` /
`anathema-widget-core` are not in the provided tree) -/

/-- Modelled from the spec: `Size { width, height }` from
`anathema-render`. -/
structure Size where
  width : Nat
  height : Nat
deriving DecidableEq

/-- Modelled from the spec: `Size::ZERO`. -/
def Size.ZERO : Size := ⟨0, 0⟩

/-- Modelled from the spec: sizes add per axis (used to accumulate the
border overhead back into the child's reported size). -/
instance : Add Size := ⟨fun a b => ⟨a.width + b.width, a.height + b.height⟩⟩

/-- Modelled from the spec: `Constraints` from `anathema-widget-core`
carries `min_width, max_width, min_height, max_height : usize`. -/
structure Constraints where
  min_width : Nat
  max_width : Nat
  min_height : Nat
  max_height : Nat
deriving DecidableEq

/-- Modelled from the spec: the `ZERO` constraints sentinel — no space
available (max fields 0, minimums 0); compared by plain field equality. -/
def Constraints.ZERO : Constraints := ⟨0, 0, 0, 0⟩

/-- Modelled from the spec: `make_width_tight(n)` sets
`min_width == max_width == n'` where `n'` is `n` clamped to not exceed the
original `max_width`; the height fields are unchanged. -/
def Constraints.make_width_tight (c : Constraints) (width : Nat) : Constraints :=
  let mw := Nat.min c.max_width width
  { c with max_width := mw, min_width := mw }

/-- Modelled from the spec: `make_height_tight(n)`, the height analog. -/
def Constraints.make_height_tight (c : Constraints) (height : Nat) : Constraints :=
  let mh := Nat.min c.max_height height
  { c with max_height := mh, min_height := mh }

/-- The layout error enum (`anathema-widget-core::error`): the single
insufficient-space kind used by the layout protocol. -/
inductive LayoutError where
  | InsufficientSpaceAvailble : LayoutError
deriving DecidableEq

/-- Rust's `usize::checked_sub`: `none` on underflow. -/
def checkedSub (a b : Nat) : Option Nat :=
  if b ≤ a then some (a - b) else none

/-! ## Border layout (`src/anathema-widgets/src/layout/border.rs`) -/

/-- `BorderLayout`: optional minimum and fixed dimensions plus the always
present frame overhead `border_size`. -/
structure BorderLayout where
  min_width : Option Nat
  min_height : Option Nat
  width : Option Nat
  height : Option Nat
  border_size : Size

/-- The constraint-adjustment prefix of `BorderLayout::layout`
(`border.rs` lines 18–38): raise the minimums to any configured
`min_width`/`min_height`, then tighten the axes with any configured
`width`/`height`. -/
def BorderLayout.adjustConstraints (bl : BorderLayout) (incoming : Constraints) :
    Constraints :=
  let c := incoming
  let c := match bl.min_width with
    | some mw => { c with min_width := Nat.max c.min_width mw }
    | none => c
  let c := match bl.min_height with
    | some mh => { c with min_height := Nat.max c.min_height mh }
    | none => c
  let c := match bl.width with
    | some w => c.make_width_tight w
    | none => c
  match bl.height with
    | some h => c.make_height_tight h
    | none => c

/-- The constraints `BorderLayout::layout` derives for its child
(`border.rs` lines 49–67), written with truncated subtraction; it agrees
with the code whenever the `checked_sub` calls succeed: subtract the
border from the maxima, then lower each minimum to its maximum where it
exceeds it. -/
def BorderLayout.childConstraints (bl : BorderLayout) (incoming : Constraints) :
    Constraints :=
  let ac := bl.adjustConstraints incoming
  let cc := { ac with max_width := ac.max_width - bl.border_size.width,
                      max_height := ac.max_height - bl.border_size.height }
  let cc := if cc.min_width > cc.max_width then { cc with min_width := cc.max_width } else cc
  if cc.min_height > cc.max_height then { cc with min_height := cc.max_height } else cc

/-- `BorderLayout::layout` (`border.rs`).  The single child (`nodes.next`)
is embedded as a function from the derived constraints to a fallible size;
the second component of the result records the constraints each child
`layout` invocation received, so that "the child is never invoked" is the
empty list and "invoked exactly once" a singleton. -/
def BorderLayout.layout (bl : BorderLayout) (child : Constraints → Except LayoutError Size)
    (incoming : Constraints) : Except LayoutError Size × List Constraints :=
  let constraints := bl.adjustConstraints incoming
  if constraints = Constraints.ZERO then
    (Except.ok Size.ZERO, [])
  else
    let border_size := bl.border_size
    match checkedSub constraints.max_width border_size.width with
    | none => (Except.error LayoutError.InsufficientSpaceAvailble, [])
    | some w =>
      match checkedSub constraints.max_height border_size.height with
      | none => (Except.error LayoutError.InsufficientSpaceAvailble, [])
      | some h =>
        let cc := { constraints with max_width := w, max_height := h }
        let cc := if cc.min_width > cc.max_width then { cc with min_width := cc.max_width } else cc
        let cc := if cc.min_height > cc.max_height then { cc with min_height := cc.max_height } else cc
        if cc.max_width = 0 ∨ cc.max_height = 0 then
          (Except.error LayoutError.InsufficientSpaceAvailble, [])
        else
          match child cc with
          | Except.error e => (Except.error e, [cc])
          | Except.ok inner_size =>
            let size := inner_size + border_size
            let size := match bl.min_width with
              | some mw => { size with width := Nat.max size.width mw }
              | none => size
            let size := match bl.min_height with
              | some mh => { size with height := Nat.max size.height mh }
              | none => size
            (Except.ok ⟨Nat.max size.width constraints.min_width,
                        Nat.max size.height constraints.min_height⟩, [cc])

/-- The per-axis minimum clamp applied to the accumulated size
(`border.rs` lines 78–84): with a configured minimum raise to it,
otherwise leave the value unchanged. -/
def optClampMin (x : Nat) : Option Nat → Nat
  | some m => Nat.max x m
  | none => x

/-- The size `BorderLayout::layout` returns on a successful pass
(`border.rs` lines 76–89): the child's reported size plus `border_size`
per axis, clamped up to the configured minimums, then clamped up to the
adjusted constraints' minimums. -/
def BorderLayout.finalSize (bl : BorderLayout) (incoming : Constraints) (inner : Size) :
    Size :=
  let ac := bl.adjustConstraints incoming
  ⟨Nat.max (optClampMin (inner.width + bl.border_size.width) bl.min_width) ac.min_width,
   Nat.max (optClampMin (inner.height + bl.border_size.height) bl.min_height) ac.min_height⟩

/-! ## Helper lemmas: evaluation of `BorderLayout.layout` on its three
control paths (zero short-circuit, insufficient space, child invocation) -/

theorem Size.add_def (a b : Size) : a + b = ⟨a.width + b.width, a.height + b.height⟩ := rfl

theorem layout_zero_eval (bl : BorderLayout) (child : Constraints → Except LayoutError Size)
    (incoming : Constraints) (hz : bl.adjustConstraints incoming = Constraints.ZERO) :
    bl.layout child incoming = (Except.ok Size.ZERO, []) := by
  unfold BorderLayout.layout
  rw [if_pos hz]

theorem layout_fail_eval (bl : BorderLayout) (child : Constraints → Except LayoutError Size)
    (incoming : Constraints) (hz : bl.adjustConstraints incoming ≠ Constraints.ZERO)
    (h0 : (bl.adjustConstraints incoming).max_width - bl.border_size.width = 0 ∨
          (bl.adjustConstraints incoming).max_height - bl.border_size.height = 0) :
    bl.layout child incoming = (Except.error LayoutError.InsufficientSpaceAvailble, []) := by
  unfold BorderLayout.layout
  rw [if_neg hz]
  by_cases hw : bl.border_size.width ≤ (bl.adjustConstraints incoming).max_width
  · by_cases hh : bl.border_size.height ≤ (bl.adjustConstraints incoming).max_height
    · simp only [checkedSub, if_pos hw, if_pos hh,
        apply_ite Constraints.min_width, apply_ite Constraints.max_width,
        apply_ite Constraints.min_height, apply_ite Constraints.max_height, ite_self]
      rw [if_pos h0]
    · simp [checkedSub, hw, hh]
  · simp [checkedSub, hw]

theorem layout_child_eval (bl : BorderLayout) (child : Constraints → Except LayoutError Size)
    (incoming : Constraints)
    (hz : bl.adjustConstraints incoming ≠ Constraints.ZERO)
    (hw : bl.border_size.width ≤ (bl.adjustConstraints incoming).max_width)
    (hh : bl.border_size.height ≤ (bl.adjustConstraints incoming).max_height)
    (hw0 : (bl.adjustConstraints incoming).max_width - bl.border_size.width ≠ 0)
    (hh0 : (bl.adjustConstraints incoming).max_height - bl.border_size.height ≠ 0) :
    bl.layout child incoming =
      match child (bl.childConstraints incoming) with
      | Except.error e => (Except.error e, [bl.childConstraints incoming])
      | Except.ok inner =>
        (Except.ok (bl.finalSize incoming inner), [bl.childConstraints incoming]) := by
  unfold BorderLayout.layout
  rw [if_neg hz]
  simp only [checkedSub, if_pos hw, if_pos hh]
  unfold BorderLayout.childConstraints BorderLayout.finalSize
  simp only [apply_ite Constraints.min_width, apply_ite Constraints.max_width,
             apply_ite Constraints.min_height, apply_ite Constraints.max_height, ite_self]
  rw [if_neg (by push_neg; exact ⟨hw0, hh0⟩)]
  split
  next e heq => rfl
  next inner heq =>
    rcases hmw : bl.min_width with _ | mw <;> rcases hmh : bl.min_height with _ | mh <;>
      simp [hmw, hmh, optClampMin, Size.add_def]

theorem layout_invoked_inv (bl : BorderLayout) (child : Constraints → Except LayoutError Size)
    (incoming : Constraints) (cc : Constraints)
    (hcc : (bl.layout child incoming).2 = [cc]) :
    cc = bl.childConstraints incoming ∧
    bl.adjustConstraints incoming ≠ Constraints.ZERO ∧
    bl.border_size.width ≤ (bl.adjustConstraints incoming).max_width ∧
    bl.border_size.height ≤ (bl.adjustConstraints incoming).max_height ∧
    (bl.adjustConstraints incoming).max_width - bl.border_size.width ≠ 0 ∧
    (bl.adjustConstraints incoming).max_height - bl.border_size.height ≠ 0 := by
  by_cases hz : bl.adjustConstraints incoming = Constraints.ZERO
  · rw [layout_zero_eval bl child incoming hz] at hcc
    simp at hcc
  by_cases h0 : (bl.adjustConstraints incoming).max_width - bl.border_size.width = 0 ∨
                (bl.adjustConstraints incoming).max_height - bl.border_size.height = 0
  · rw [layout_fail_eval bl child incoming hz h0] at hcc
    simp at hcc
  push_neg at h0
  obtain ⟨hw0, hh0⟩ := h0
  have hw : bl.border_size.width ≤ (bl.adjustConstraints incoming).max_width := by omega
  have hh : bl.border_size.height ≤ (bl.adjustConstraints incoming).max_height := by omega
  refine ⟨?_, hz, hw, hh, hw0, hh0⟩
  rw [layout_child_eval bl child incoming hz hw hh hw0 hh0] at hcc
  rcases hchild : child (bl.childConstraints incoming) with e | inner <;>
    rw [hchild] at hcc <;> simp at hcc <;> exact hcc.symm

/-! ## The layout claims -/

/-- C1: for every border layout configuration and incoming constraints, if
the constraints — after raising the minimums to the configured
`min_width`/`min_height` and tightening the axes with a configured
`width`/`height` — equal the `ZERO` sentinel, then `layout` returns
`Size::ZERO` successfully and never invokes the child's layout (the
invocation log is empty). -/
theorem border_zero_short_circuit (bl : BorderLayout)
    (child : Constraints → Except LayoutError Size) (incoming : Constraints)
    (hz : bl.adjustConstraints incoming = Constraints.ZERO) :
    bl.layout child incoming = (Except.ok Size.ZERO, []) :=
  layout_zero_eval bl child incoming hz

/-- C1 witness: concrete instance — zero incoming constraints and no
overrides adjust to `ZERO`, and `layout` short-circuits. -/
theorem border_zero_short_circuit_witness :
    BorderLayout.adjustConstraints ⟨none, none, none, none, ⟨1, 1⟩⟩ ⟨0, 0, 0, 0⟩ =
      Constraints.ZERO ∧
    BorderLayout.layout ⟨none, none, none, none, ⟨1, 1⟩⟩ (fun _ => Except.ok ⟨9, 9⟩)
      ⟨0, 0, 0, 0⟩ = (Except.ok Size.ZERO, []) :=
  ⟨rfl, border_zero_short_circuit _ _ _ rfl⟩

/-- C2: when the adjusted constraints are not `ZERO`: if `border_size.width`
exceeds the adjusted `max_width`, or `border_size.height` exceeds the
adjusted `max_height`, or after subtracting `border_size` either resulting
max dimension is exactly 0, then `layout` fails with the single
insufficient-space error and the child is never invoked; otherwise the
child is invoked on the derived constraints and any failure of the whole
pass is the child's own error — `BorderLayout` itself raises no
insufficient-space error. -/
theorem border_insufficient_space (bl : BorderLayout)
    (child : Constraints → Except LayoutError Size) (incoming : Constraints)
    (hz : bl.adjustConstraints incoming ≠ Constraints.ZERO) :
    ((bl.border_size.width > (bl.adjustConstraints incoming).max_width ∨
      bl.border_size.height > (bl.adjustConstraints incoming).max_height ∨
      (bl.adjustConstraints incoming).max_width - bl.border_size.width = 0 ∨
      (bl.adjustConstraints incoming).max_height - bl.border_size.height = 0) →
        bl.layout child incoming =
          (Except.error LayoutError.InsufficientSpaceAvailble, [])) ∧
    (¬ (bl.border_size.width > (bl.adjustConstraints incoming).max_width ∨
        bl.border_size.height > (bl.adjustConstraints incoming).max_height ∨
        (bl.adjustConstraints incoming).max_width - bl.border_size.width = 0 ∨
        (bl.adjustConstraints incoming).max_height - bl.border_size.height = 0) →
      (∀ s, child (bl.childConstraints incoming) = Except.ok s →
        bl.layout child incoming =
          (Except.ok (bl.finalSize incoming s), [bl.childConstraints incoming])) ∧
      (∀ e, child (bl.childConstraints incoming) = Except.error e →
        bl.layout child incoming = (Except.error e, [bl.childConstraints incoming]))) := by
  constructor
  · intro hcond
    refine layout_fail_eval bl child incoming hz ?_
    omega
  · intro hcond
    push_neg at hcond
    obtain ⟨hw', hh', hw0, hh0⟩ := hcond
    have hw : bl.border_size.width ≤ (bl.adjustConstraints incoming).max_width := hw'
    have hh : bl.border_size.height ≤ (bl.adjustConstraints incoming).max_height := hh'
    constructor
    · intro s hs
      rw [layout_child_eval bl child incoming hz hw hh hw0 hh0, hs]
    · intro e he
      rw [layout_child_eval bl child incoming hz hw hh hw0 hh0, he]

/-- C2 witness: border `(2,2)` against incoming max `(1,1)` is the
insufficient-space scenario — the adjusted constraints are not `ZERO`, the
border exceeds the max width, and `layout` fails without invoking the
child. -/
theorem border_insufficient_space_witness :
    BorderLayout.adjustConstraints ⟨none, none, none, none, ⟨2, 2⟩⟩ ⟨0, 1, 0, 1⟩ ≠
      Constraints.ZERO ∧
    BorderLayout.layout ⟨none, none, none, none, ⟨2, 2⟩⟩ (fun _ => Except.ok ⟨0, 0⟩)
      ⟨0, 1, 0, 1⟩ = (Except.error LayoutError.InsufficientSpaceAvailble, []) :=
  ⟨by decide,
   (border_insufficient_space _ _ _ (by decide)).1 (Or.inl (by decide))⟩

/-- C3 counterexample: the claim says the accumulated size is re-clamped
upward to the configured minimums and then to the *original incoming*
constraints' minimums.  With a configured fixed `width = 5`, border
`(1,1)`, incoming constraints `(min 0, max 10)` on both axes and a child
reporting `(3,3)`, the claim predicts `max (max (3+1) _) 0 = 4` for the
width, but the code clamps to the *adjusted* minimum (`make_width_tight`
set `min_width = 5`) and returns width `5`. -/
theorem border_final_clamp_cex :
    BorderLayout.layout ⟨none, none, some 5, none, ⟨1, 1⟩⟩ (fun _ => Except.ok ⟨3, 3⟩)
      ⟨0, 10, 0, 10⟩ = (Except.ok ⟨5, 4⟩, [⟨4, 4, 0, 9⟩]) ∧
    Nat.max (optClampMin ((3 : Nat) + 1) none) (Constraints.min_width ⟨0, 10, 0, 10⟩) = 4 ∧
    (⟨5, 4⟩ : Size) ≠ (⟨4, 4⟩ : Size) :=
  ⟨rfl, rfl, by decide⟩

/-- C3 (amended): for every successful border layout pass that lays out
its child, the returned size is the child's reported size plus
`border_size` per axis, re-clamped upward to the configured
`min_width`/`min_height`, and then re-clamped upward to the *adjusted*
constraints' minimums — the incoming minimums after raising them to the
configured minimums and applying `width`/`height` tightening (these equal
the original incoming minimums whenever no fixed `width`/`height` is
configured).  `finalSize` is exactly that formula. -/
theorem border_final_clamp (bl : BorderLayout)
    (child : Constraints → Except LayoutError Size) (incoming : Constraints)
    (cc : Constraints) (inner : Size)
    (hcc : (bl.layout child incoming).2 = [cc])
    (hchild : child cc = Except.ok inner) :
    (bl.layout child incoming).1 = Except.ok (bl.finalSize incoming inner) := by
  obtain ⟨hcceq, hz, hw, hh, hw0, hh0⟩ := layout_invoked_inv bl child incoming cc hcc
  subst hcceq
  rw [layout_child_eval bl child incoming hz hw hh hw0 hh0, hchild]

/-- C3 witness: border `(2,2)`, no overrides, incoming max `(10,10)`,
child reporting `(5,5)` — the theorem applies with the logged child
constraints `(0,8,0,8)` and yields `finalSize = (7,7)`. -/
theorem border_final_clamp_witness :
    (BorderLayout.layout ⟨none, none, none, none, ⟨2, 2⟩⟩ (fun _ => Except.ok ⟨5, 5⟩)
      ⟨0, 10, 0, 10⟩).1 =
      Except.ok (BorderLayout.finalSize ⟨none, none, none, none, ⟨2, 2⟩⟩ ⟨0, 10, 0, 10⟩
        ⟨5, 5⟩) :=
  border_final_clamp _ _ _ ⟨0, 8, 0, 8⟩ ⟨5, 5⟩ rfl rfl

/-- C4: border `(2,2)`, no overrides, incoming constraints with minimums 0
and maxima `(10,10)`, child reporting `(5,5)`: the layout succeeds with
`Size (7,7)`, after invoking the child exactly once with the derived
constraints `(0,8,0,8)`. -/
theorem border_scenario_seven :
    BorderLayout.layout ⟨none, none, none, none, ⟨2, 2⟩⟩ (fun _ => Except.ok ⟨5, 5⟩)
      ⟨0, 10, 0, 10⟩ = (Except.ok ⟨7, 7⟩, [⟨0, 8, 0, 8⟩]) :=
  rfl

/-- C5: whenever the border layout invokes its child (the invocation log
is the singleton `[cc]`), the constraints `cc` the child receives are the
derived ones: each max is the adjusted max minus the border (maxima are
never raised), each min is the adjusted min lowered to the derived max
where it exceeded it, and consequently `min ≤ max` holds on both axes. -/
theorem border_child_constraints_wf (bl : BorderLayout)
    (child : Constraints → Except LayoutError Size) (incoming : Constraints)
    (cc : Constraints)
    (hcc : (bl.layout child incoming).2 = [cc]) :
    cc = bl.childConstraints incoming ∧
    cc.max_width + bl.border_size.width = (bl.adjustConstraints incoming).max_width ∧
    cc.max_height + bl.border_size.height = (bl.adjustConstraints incoming).max_height ∧
    cc.min_width = Nat.min (bl.adjustConstraints incoming).min_width cc.max_width ∧
    cc.min_height = Nat.min (bl.adjustConstraints incoming).min_height cc.max_height ∧
    cc.min_width ≤ cc.max_width ∧ cc.min_height ≤ cc.max_height := by
  obtain ⟨hcceq, hz, hw, hh, hw0, hh0⟩ := layout_invoked_inv bl child incoming cc hcc
  subst hcceq
  refine ⟨rfl, ?_⟩
  unfold BorderLayout.childConstraints
  simp only [apply_ite Constraints.min_width, apply_ite Constraints.max_width,
             apply_ite Constraints.min_height, apply_ite Constraints.max_height, ite_self]
  constructor
  · omega
  constructor
  · omega
  refine ⟨?_, ?_, ?_, ?_⟩ <;> (try simp only [Nat.min_def]) <;> split_ifs <;> omega

/-- C5 witness: in the `(2,2)`-border, max `(10,10)` scenario the child is
invoked with `(0,8,0,8)`, which satisfies all the derived-constraint
equations. -/
theorem border_child_constraints_wf_witness :
    (⟨0, 8, 0, 8⟩ : Constraints) =
      BorderLayout.childConstraints ⟨none, none, none, none, ⟨2, 2⟩⟩ ⟨0, 10, 0, 10⟩ ∧
    (8 : Nat) + 2 = 10 ∧ (8 : Nat) + 2 = 10 ∧
    (0 : Nat) = Nat.min 0 8 ∧ (0 : Nat) = Nat.min 0 8 ∧
    (0 : Nat) ≤ 8 ∧ (0 : Nat) ≤ 8 :=
  border_child_constraints_wf ⟨none, none, none, none, ⟨2, 2⟩⟩ (fun _ => Except.ok ⟨5, 5⟩)
    ⟨0, 10, 0, 10⟩ ⟨0, 8, 0, 8⟩ rfl

/-! ## The value-reference claims -/

/-- C6: `is_true` holds exactly for a non-empty `Str`, `Owned(Bool(true))`,
and strictly positive `Owned(Num(Signed))` / `Owned(Num(Unsigned))`; in
particular `Str("")`, `Owned(Num(Signed(-1)))`, `Owned(Num(Float(2.0)))`,
`Empty` and `Deferred` are all false. -/
theorem is_true_truth_table :
    (∀ v : ValueRef, v.is_true = true ↔
      ((∃ s, v = ValueRef.Str s ∧ s ≠ "") ∨
       v = ValueRef.Owned (Owned.Bool true) ∨
       (∃ n : Int, v = ValueRef.Owned (Owned.Num (Num.Signed n)) ∧ 0 < n) ∨
       (∃ n : Nat, v = ValueRef.Owned (Owned.Num (Num.Unsigned n)) ∧ 0 < n))) ∧
    ValueRef.is_true (ValueRef.Str "") = false ∧
    ValueRef.is_true (ValueRef.Owned (Owned.Num (Num.Signed (-1)))) = false ∧
    ValueRef.is_true (ValueRef.Owned (Owned.Num (Num.Float 2.0))) = false ∧
    ValueRef.is_true ValueRef.Empty = false ∧
    ValueRef.is_true ValueRef.Deferred = false := by
  refine ⟨?_, rfl, by decide, rfl, rfl, rfl⟩
  intro v
  cases v with
  | Str s => simp [ValueRef.is_true, ← String.isEmpty_iff]
  | Owned o =>
    cases o with
    | Bool b => cases b <;> simp [ValueRef.is_true]
    | Char c => simp [ValueRef.is_true]
    | Color c => simp [ValueRef.is_true]
    | Num n => cases n <;> simp [ValueRef.is_true]
  | _ => simp [ValueRef.is_true]

/-- C7: two value references compare equal only when both are `Str` with
equal contents or both are `Owned` with equal owned scalars; every other
pairing — including two `Map` references to the same underlying map, two
`List`s, two `Expressions`, two `ExpressionMap`s, two `Deferred`, or two
`Empty` — compares unequal. -/
theorem valueref_eq_str_owned_only :
    (∀ a b : ValueRef, valueRefBeq a b = true ↔
      ((∃ s, a = ValueRef.Str s ∧ b = ValueRef.Str s) ∨
       (∃ o p, a = ValueRef.Owned o ∧ b = ValueRef.Owned p ∧ ownedBeq o p = true))) ∧
    (∀ h : StateHandle, valueRefBeq (ValueRef.Map h) (ValueRef.Map h) = false) ∧
    (∀ c : CollectionHandle, valueRefBeq (ValueRef.List c) (ValueRef.List c) = false) ∧
    (∀ es, valueRefBeq (ValueRef.Expressions es) (ValueRef.Expressions es) = false) ∧
    (∀ em, valueRefBeq (ValueRef.ExpressionMap em) (ValueRef.ExpressionMap em) = false) ∧
    valueRefBeq ValueRef.Deferred ValueRef.Deferred = false ∧
    valueRefBeq ValueRef.Empty ValueRef.Empty = false := by
  refine ⟨?_, fun _ => rfl, fun _ => rfl, fun _ => rfl, fun _ => rfl, rfl, rfl⟩
  intro a b
  cases a <;> cases b <;> simp [valueRefBeq]
  exact eq_comm

/-- C8: extraction into an unsigned-integer target of any bit width `w`
(the instantiated targets are `u8`, `u16`, `u32`, `u64` and the 64-bit
`usize`) succeeds exactly when the tag is `Owned(Num(Unsigned))` or
`Owned(Num(Signed))`, and fails with the single uniform unit error on
every other tag; extracting from `Owned(Num(Signed(5)))` yields `5` while
extracting from `Str("5")` fails. -/
theorem unsigned_extraction_shape :
    (∀ (w : Nat) (v : ValueRef),
      ((∃ k, unsignedTryFrom w v = Except.ok k) ↔
        ((∃ n, v = ValueRef.Owned (Owned.Num (Num.Unsigned n))) ∨
         (∃ n, v = ValueRef.Owned (Owned.Num (Num.Signed n))))) ∧
      (unsignedTryFrom w v = Except.error () ↔
        ¬ ((∃ n, v = ValueRef.Owned (Owned.Num (Num.Unsigned n))) ∨
           (∃ n, v = ValueRef.Owned (Owned.Num (Num.Signed n)))))) ∧
    unsignedTryFrom 64 (ValueRef.Owned (Owned.Num (Num.Signed 5))) = Except.ok 5 ∧
    unsignedTryFrom 64 (ValueRef.Str "5") = Except.error () := by
  refine ⟨?_, by rfl, rfl⟩
  intro w v
  constructor
  · cases v with
    | Owned o =>
      cases o with
      | Num n => cases n <;> simp [unsignedTryFrom]
      | _ => simp [unsignedTryFrom]
    | _ => simp [unsignedTryFrom]
  · cases v with
    | Owned o =>
      cases o with
      | Num n => cases n <;> simp [unsignedTryFrom]
      | _ => simp [unsignedTryFrom]
    | _ => simp [unsignedTryFrom]

/-- C9: extracting an unsigned target of width `w` from
`Owned(Num(Signed(n)))` succeeds for every `n`, including every negative
`n`, and the result is the two's-complement reinterpretation of `n`
truncated to `w` bits — the unique `k < 2^w` with `k ≡ n (mod 2^w)`; in
particular the 64-bit extraction of `Signed(-1)` is `u64::MAX`. -/
theorem unsigned_extraction_twos_complement :
    (∀ (w : Nat) (n : Int),
      ∃ k, unsignedTryFrom w (ValueRef.Owned (Owned.Num (Num.Signed n))) = Except.ok k ∧
        k < 2 ^ w ∧ (k : Int) % 2 ^ w = n % 2 ^ w) ∧
    unsignedTryFrom 64 (ValueRef.Owned (Owned.Num (Num.Signed (-1)))) =
      Except.ok (2 ^ 64 - 1) := by
  refine ⟨?_, by rfl⟩
  intro w n
  refine ⟨(n % ((2 : Int) ^ w)).toNat, rfl, ?_, ?_⟩
  · have hpos : (0 : Int) < (2 : Int) ^ w := by positivity
    have h1 : 0 ≤ n % (2 : Int) ^ w := Int.emod_nonneg n (by positivity)
    have h2 : n % (2 : Int) ^ w < (2 : Int) ^ w := Int.emod_lt_of_pos n hpos
    have hcast : ((2 : Int) ^ w) = ((2 ^ w : Nat) : Int) := by push_cast; ring
    omega
  · have h1 : 0 ≤ n % (2 : Int) ^ w := Int.emod_nonneg n (by positivity)
    rw [Int.toNat_of_nonneg h1]
    exact Int.emod_emod_of_dvd n dvd_rfl

/-- C10: converting a string slice into a value reference yields `Str(s)`,
and both the slice-shaped and the owned-`String`-shaped extraction from
that reference succeed and return exactly the original string — the
conversion round-trips. -/
theorem str_conversion_round_trip :
    ∀ s : String, strIntoValueRef s = ValueRef.Str s ∧
      strSliceTryFrom (strIntoValueRef s) = Except.ok s ∧
      stringTryFrom (strIntoValueRef s) = Except.ok s :=
  fun _ => ⟨rfl, rfl, rfl⟩

end Anathema

